import Mathlib

/-!
# Shallow embedding of the Chakra UI `Button` component

This file embeds `src/packages/components/src/button/button.tsx` in Lean 4 and
proves the specified properties about it.

Modelling conventions:

* JavaScript property values are the inductive `PVal`: strings, booleans,
  renderable React elements (opaque, identified by a `Nat` id), and
  `undefined`.  A props object is an association list `Props` with unique
  keys; `getProp` reads a key, returning `PVal.undef` for a missing key,
  exactly as JavaScript property access does.
* The render tree is `RLeaf` / `ContentOut` / `RNode` / `RootButton`:
  the nodes the component emits (text, rendered prop values, `ButtonIcon`,
  `ButtonSpinner`, the zero-opacity span, the `display: contents` wrapper
  span, and the root button element with its attributes).  `ButtonIcon` and
  `ButtonSpinner` are external subcomponents; we record the props passed to
  them at the call sites, which is all the spec speaks about.
* Style objects are association lists of `SVal` with JavaScript spread
  semantics: spread is append and a later binding for a key wins (`sget`).
* External collaborators that live in this repository but outside `src/`
  (`dataAttr`, `cx`, `objectFilter` from the utils package, and
  `omitThemingProps` from the styled-system package) are modelled from the
  spec; each such definition is marked in its doc comment.  The ambient
  button-group context and the theme-resolved style object are explicit
  parameters, following the spec's context-passing note.  Ref merging and
  the default-`type` detection are delegated to external helpers the spec
  puts out of scope, so the root node omits the `ref` and `type`
  attributes.
-/

namespace ChakraButton

/-- A JavaScript value occurring as a React prop in this component:
`undefined`, a string, a boolean, or a renderable React element
(opaque, identified by a natural-number id). -/
inductive PVal where
  | undef : PVal
  | str : String → PVal
  | boolean : Bool → PVal
  | elem : Nat → PVal
deriving DecidableEq, Repr

/-- JavaScript truthiness restricted to `PVal`: `undefined` and `false` and
the empty string are falsy; every element (object) is truthy. -/
def truthy : PVal → Bool
  | PVal.undef => false
  | PVal.str s => !s.isEmpty
  | PVal.boolean b => b
  | PVal.elem _ => true

/-- JavaScript `a || b` on prop values: `a` when `a` is truthy, else `b`. -/
def jsOr (a b : PVal) : PVal :=
  if truthy a then a else b

/-- Modelled from the spec: React's `isValidElement` (an external
collaborator) recognizes exactly the renderable element values. -/
def isValidElement : PVal → Bool
  | PVal.elem _ => true
  | _ => false

/-- A props object: an association list from property names to values. -/
abbrev Props : Type := List (String × PVal)

/-- Property access: the value bound to `k`, or `undefined` when absent. -/
def getProp (props : Props) (k : String) : PVal :=
  match props with
  | [] => PVal.undef
  | (a, v) :: rest => if a = k then v else getProp rest k

/-- Modelled from the spec: `objectFilter` from the utils package keeps the
entries of a props object whose value satisfies the predicate. -/
def objectFilter (props : Props) (p : PVal → Bool) : Props :=
  List.filter (fun kv => p kv.2) props

/-- From the source: filter out all props that are valid React elements,
e.g. `leftIcon`, `rightIcon`, `children`, ... -/
def omitValidElementProps (props : Props) : Props :=
  objectFilter props (fun value => !isValidElement value)

/-- Modelled from the spec: the theming-variant selector keys (style variant
name + size + color scheme, plus the style-config override) removed by
`omitThemingProps` of the styled-system package. -/
def themingKeys : List String :=
  ["styleConfig", "size", "variant", "colorScheme"]

/-- Modelled from the spec: `omitThemingProps` (styled-system package)
removes the theming-variant selector keys from a props object. -/
def omitThemingProps (props : Props) : Props :=
  List.filter (fun kv => !themingKeys.contains kv.1) props

/-- Modelled from the spec: `dataAttr` from the utils package turns a
condition into a data-attribute value: the empty string when the condition
is truthy (attribute present), `undefined` when it is falsy (attribute
absent) — never the string "false". -/
def dataAttr (condition : Bool) : Option String :=
  if condition then some "" else none

/-- JavaScript string coercion for the values that can reach `cx`. -/
def jsToString : PVal → String
  | PVal.undef => "undefined"
  | PVal.str s => s
  | PVal.boolean b => if b then "true" else "false"
  | PVal.elem _ => "[object Object]"

/-- Modelled from the spec: `cx` from the utils package joins the truthy
class-name arguments with single spaces. -/
def cx (classNames : List PVal) : String :=
  String.intercalate " " (List.map jsToString (List.filter truthy classNames))

/-- The ambient button-group context, passed explicitly (spec design note):
a group may supply a default disabled flag.  `none` means the button is not
inside a group. -/
structure ButtonGroupContext where
  isDisabled : Option Bool
deriving DecidableEq, Repr

/-! ## Style objects -/

/-- An atomic style value. -/
inductive SAtom where
  | str : String → SAtom
  | num : Int → SAtom
deriving DecidableEq, Repr

/-- A style value: an atom or a nested object of atoms (such as the
`_focus` pseudo-style). -/
inductive SVal where
  | atom : SAtom → SVal
  | obj : List (String × SAtom) → SVal
deriving DecidableEq, Repr

/-- A style object: an association list with JavaScript spread semantics,
where spreading appends and a later binding for a key wins. -/
abbrev StyleObj : Type := List (String × SVal)

/-- Key lookup in an association list where the LAST binding for the key
wins, matching the semantics of JavaScript object spread as append. -/
def lookupLast {β : Type} (l : List (String × β)) (k : String) : Option β :=
  match l with
  | [] => none
  | (a, v) :: rest =>
    match lookupLast rest k with
    | some w => some w
    | none => if a = k then some v else none

/-- The fields of the theme style's `_focus` object (`styles?.["_focus"]`),
or the empty object when `_focus` is absent or not an object (spreading
`undefined` yields no fields). -/
def focusBase (styles : StyleObj) : List (String × SAtom) :=
  match lookupLast styles "_focus" with
  | some (SVal.obj fields) => fields
  | _ => []

/-- The base structural defaults of the button root, in source order. -/
def baseStyles : StyleObj :=
  [("display", SVal.atom (SAtom.str "inline-flex")),
   ("appearance", SVal.atom (SAtom.str "none")),
   ("alignItems", SVal.atom (SAtom.str "center")),
   ("justifyContent", SVal.atom (SAtom.str "center")),
   ("userSelect", SVal.atom (SAtom.str "none")),
   ("position", SVal.atom (SAtom.str "relative")),
   ("whiteSpace", SVal.atom (SAtom.str "nowrap")),
   ("verticalAlign", SVal.atom (SAtom.str "middle")),
   ("outline", SVal.atom (SAtom.str "none"))]

/-- `_focus = { ...styles?.["_focus"], zIndex: 1 }` from the source. -/
def focusOverride (styles : StyleObj) : SVal :=
  SVal.obj (focusBase styles ++ [("zIndex", SAtom.num 1)])

/-- `buttonStyles` from the source: base structural defaults, spread the
theme-resolved styles over them, and, only when inside a group, spread the
focus-ring z-index override `{ _focus }` on top. -/
def buttonStyles (group : Option ButtonGroupContext) (styles : StyleObj) :
    StyleObj :=
  baseStyles ++ styles ++
    (if group.isSome then [("_focus", focusOverride styles)] else [])

/-! ## The render tree -/

/-- A childless node of the rendered body: a text node, a rendered prop
value (an opaque element by id), a `ButtonIcon` call recording the margin
props and the icon content, or a `ButtonSpinner` call recording the
className, label, placement, spacing and spinner props. -/
inductive RLeaf where
  | text : String → RLeaf
  | elemNode : Nat → RLeaf
  | buttonIcon : (marginStart : PVal) → (marginEnd : PVal) → (child : PVal) →
      RLeaf
  | buttonSpinner : (className : String) → (label : PVal) →
      (placement : String) → (spacing : PVal) → (child : PVal) → RLeaf
deriving DecidableEq, Repr

/-- Rendering a prop value as React children: strings render as text,
elements as themselves, `undefined` and booleans render nothing. -/
def renderVal : PVal → List RLeaf
  | PVal.undef => []
  | PVal.str s => [RLeaf.text s]
  | PVal.boolean _ => []
  | PVal.elem i => [RLeaf.elemNode i]

/-- The output of `ButtonContent`: either the icon/content/icon sequence as
sibling nodes (a fragment), or the same sequence inside one
`display: contents` wrapper span. -/
inductive ContentOut where
  | plain : List RLeaf → ContentOut
  | wrapped : List RLeaf → ContentOut
deriving DecidableEq, Repr

/-- The sibling sequence of `ButtonContent`: the left `ButtonIcon` (with
`marginEnd = iconSpacing`) when `leftIcon` is truthy, then the children,
then the right `ButtonIcon` (with `marginStart = iconSpacing`) when
`rightIcon` is truthy. -/
def buttonContentNodes (leftIcon rightIcon children iconSpacing : PVal) :
    List RLeaf :=
  (if truthy leftIcon then [RLeaf.buttonIcon PVal.undef iconSpacing leftIcon]
   else []) ++
  renderVal children ++
  (if truthy rightIcon then [RLeaf.buttonIcon iconSpacing PVal.undef rightIcon]
   else [])

/-- `ButtonContent` from the source: when `shouldWrapChildren` is falsy the
sequence is emitted as sibling nodes, otherwise it is wrapped in a single
`span` with `display: contents`. -/
def ButtonContent (leftIcon rightIcon children iconSpacing
    shouldWrapChildren : PVal) : ContentOut :=
  if !truthy shouldWrapChildren then
    ContentOut.plain (buttonContentNodes leftIcon rightIcon children iconSpacing)
  else
    ContentOut.wrapped (buttonContentNodes leftIcon rightIcon children iconSpacing)

/-- A child of the root element: a leaf, the `display: contents` wrapper
span produced by `ButtonContent`, or the zero-opacity `chakra.span`
wrapping a `ButtonContent` output. -/
inductive RNode where
  | leaf : RLeaf → RNode
  | wrapperSpan : List RLeaf → RNode
  | opacitySpan : ContentOut → RNode
deriving DecidableEq, Repr

/-- Splicing a `ButtonContent` output into a children list: the plain
fragment contributes its nodes as siblings, the wrapped form contributes
the single wrapper span. -/
def ContentOut.toNodes : ContentOut → List RNode
  | ContentOut.plain ns => List.map RNode.leaf ns
  | ContentOut.wrapped ns => [RNode.wrapperSpan ns]

/-- The rendered root element: its `disabled` flag, `data-active` and
`data-loading` attribute values (`none` = attribute absent), class name,
computed style object, passthrough props spread onto it, and children. -/
structure RootButton where
  disabled : Bool
  dataActive : Option String
  dataLoading : Option String
  className : String
  css : StyleObj
  rest : Props
  children : List RNode
deriving DecidableEq, Repr

/-! ## The Button component -/

/-- The props consumed by name in the destructuring of
`omitThemingProps(props)` in the source (everything else lands in `rest`). -/
def destructuredKeys : List String :=
  ["isDisabled", "isLoading", "isActive", "children", "leftIcon", "rightIcon",
   "loadingText", "iconSpacing", "type", "spinner", "spinnerPlacement",
   "className", "as", "shouldWrapChildren"]

/-- The named props after destructuring with their defaults, plus the
passthrough rest. -/
structure Destructured where
  isDisabled : PVal
  isLoading : PVal
  isActive : PVal
  children : PVal
  leftIcon : PVal
  rightIcon : PVal
  loadingText : PVal
  iconSpacing : PVal
  spinner : PVal
  spinnerPlacement : PVal
  className : PVal
  shouldWrapChildren : PVal
  rest : Props
deriving Repr

/-- JavaScript destructuring default: the default applies exactly when the
bound value is `undefined`. -/
def withDefault (v dflt : PVal) : PVal :=
  match v with
  | PVal.undef => dflt
  | _ => v

/-- `group?.isDisabled` as a prop value: `undefined` when there is no group
or the group supplies no disabled flag, else the group's boolean. -/
def groupDisabledVal (group : Option ButtonGroupContext) : PVal :=
  match group with
  | none => PVal.undef
  | some g =>
    match g.isDisabled with
    | none => PVal.undef
    | some b => PVal.boolean b

/-- The destructuring of `omitThemingProps(props)` from the source:
`isDisabled` defaults to `group?.isDisabled`, `iconSpacing` to "0.5rem",
`spinnerPlacement` to "start"; everything not consumed by name is `rest`. -/
def destructure (group : Option ButtonGroupContext) (props : Props) :
    Destructured :=
  let p := omitThemingProps props
  { isDisabled := withDefault (getProp p "isDisabled") (groupDisabledVal group)
    isLoading := getProp p "isLoading"
    isActive := getProp p "isActive"
    children := getProp p "children"
    leftIcon := getProp p "leftIcon"
    rightIcon := getProp p "rightIcon"
    loadingText := getProp p "loadingText"
    iconSpacing := withDefault (getProp p "iconSpacing") (PVal.str "0.5rem")
    spinner := getProp p "spinner"
    spinnerPlacement :=
      withDefault (getProp p "spinnerPlacement") (PVal.str "start")
    className := getProp p "className"
    shouldWrapChildren := getProp p "shouldWrapChildren"
    rest := List.filter (fun kv => !destructuredKeys.contains kv.1) p }

/-- The `ButtonSpinner` call of the source for a given placement, recording
the className, the loading label, the icon spacing and the spinner prop. -/
def spinnerNode (placement : String) (d : Destructured) : RNode :=
  RNode.leaf (RLeaf.buttonSpinner ("chakra-button__spinner--" ++ placement)
    d.loadingText placement d.iconSpacing d.spinner)

/-- The spinner rendered before the content:
`isLoading && spinnerPlacement === "start" && <ButtonSpinner .../>`. -/
def spinnerStartNodes (d : Destructured) : List RNode :=
  if truthy d.isLoading && (d.spinnerPlacement == PVal.str "start") then
    [spinnerNode "start" d]
  else []

/-- The spinner rendered after the content:
`isLoading && spinnerPlacement === "end" && <ButtonSpinner .../>`. -/
def spinnerEndNodes (d : Destructured) : List RNode :=
  if truthy d.isLoading && (d.spinnerPlacement == PVal.str "end") then
    [spinnerNode "end" d]
  else []

/-- The `ButtonContent` call of the source with the content props. -/
def contentOf (d : Destructured) : ContentOut :=
  ButtonContent d.leftIcon d.rightIcon d.children d.iconSpacing
    d.shouldWrapChildren

/-- The main body of the source:
`isLoading ? (loadingText || <chakra.span opacity={0}><ButtonContent/></chakra.span>) : <ButtonContent/>`. -/
def bodyNodes (d : Destructured) : List RNode :=
  if truthy d.isLoading then
    if truthy d.loadingText then List.map RNode.leaf (renderVal d.loadingText)
    else [RNode.opacitySpan (contentOf d)]
  else (contentOf d).toNodes

/-- The `Button` component from the source: the ambient group context and
the theme-resolved style object are explicit inputs (both produced by
external collaborators), `props` is the caller's props object.  Produces
the rendered root element. -/
def Button (group : Option ButtonGroupContext) (styles : StyleObj)
    (props : Props) : RootButton :=
  let d := destructure group props
  { disabled := truthy (jsOr d.isDisabled d.isLoading)
    dataActive := dataAttr (truthy d.isActive)
    dataLoading := dataAttr (truthy d.isLoading)
    className := cx [PVal.str "chakra-button", d.className]
    css := buttonStyles group styles
    rest := d.rest
    children := spinnerStartNodes d ++ bodyNodes d ++ spinnerEndNodes d }

/-! ## Observation helpers -/

/-- Whether a props object has a binding for the key `k` at all. -/
def hasKey (props : Props) (k : String) : Bool :=
  List.any props (fun kv => kv.1 == k)

/-- Whether a body leaf mentions the opaque element with id `i`: as a
rendered child, as an icon's content, or as a spinner's content or label. -/
def RLeaf.hasElem (i : Nat) : RLeaf → Bool
  | RLeaf.text _ => false
  | RLeaf.elemNode j => j == i
  | RLeaf.buttonIcon _ _ c => c == PVal.elem i
  | RLeaf.buttonSpinner _ lb _ _ c => c == PVal.elem i || lb == PVal.elem i

/-- The leaves of a `ButtonContent` output, wrapper or not. -/
def ContentOut.leaves : ContentOut → List RLeaf
  | ContentOut.plain ns => ns
  | ContentOut.wrapped ns => ns

/-- Whether a root child mentions the opaque element with id `i`. -/
def RNode.hasElem (i : Nat) : RNode → Bool
  | RNode.leaf l => l.hasElem i
  | RNode.wrapperSpan ls => List.any ls (RLeaf.hasElem i)
  | RNode.opacitySpan c => List.any c.leaves (RLeaf.hasElem i)

/-- Whether any node of a children list mentions the element with id `i`. -/
def nodesHaveElem (ns : List RNode) (i : Nat) : Bool :=
  List.any ns (RNode.hasElem i)

/-! ## Basic lemmas -/

theorem getProp_filterKeys (props : Props) (keys : List String) (k : String)
    (hk : keys.contains k = false) :
    getProp (List.filter (fun kv => !keys.contains kv.1) props) k
      = getProp props k := by
  have hk' : k ∉ keys := by simpa using hk
  induction props with
  | nil => rfl
  | cons kv rest ih =>
    obtain ⟨a, v⟩ := kv
    by_cases hak : a = k
    · subst hak
      simp [List.filter_cons, hk', getProp]
    · have ih' : getProp (List.filter (fun kv => !decide (kv.1 ∈ keys)) rest) k
          = getProp rest k := by simpa using ih
      by_cases hca : a ∈ keys
      · simp [List.filter_cons, hca, getProp, hak, ih']
      · simp [List.filter_cons, hca, getProp, hak, ih']

theorem getProp_omitThemingProps (props : Props) (k : String)
    (hk : themingKeys.contains k = false) :
    getProp (omitThemingProps props) k = getProp props k :=
  getProp_filterKeys props themingKeys k hk

theorem destructure_isLoading (group : Option ButtonGroupContext)
    (props : Props) :
    (destructure group props).isLoading = getProp props "isLoading" := by
  simpa [destructure] using
    getProp_omitThemingProps props "isLoading" (by decide)

theorem destructure_isActive (group : Option ButtonGroupContext)
    (props : Props) :
    (destructure group props).isActive = getProp props "isActive" := by
  simpa [destructure] using
    getProp_omitThemingProps props "isActive" (by decide)

theorem destructure_children (group : Option ButtonGroupContext)
    (props : Props) :
    (destructure group props).children = getProp props "children" := by
  simpa [destructure] using
    getProp_omitThemingProps props "children" (by decide)

theorem destructure_leftIcon (group : Option ButtonGroupContext)
    (props : Props) :
    (destructure group props).leftIcon = getProp props "leftIcon" := by
  simpa [destructure] using
    getProp_omitThemingProps props "leftIcon" (by decide)

theorem destructure_rightIcon (group : Option ButtonGroupContext)
    (props : Props) :
    (destructure group props).rightIcon = getProp props "rightIcon" := by
  simpa [destructure] using
    getProp_omitThemingProps props "rightIcon" (by decide)

theorem destructure_loadingText (group : Option ButtonGroupContext)
    (props : Props) :
    (destructure group props).loadingText = getProp props "loadingText" := by
  simpa [destructure] using
    getProp_omitThemingProps props "loadingText" (by decide)

theorem destructure_spinner (group : Option ButtonGroupContext)
    (props : Props) :
    (destructure group props).spinner = getProp props "spinner" := by
  simpa [destructure] using
    getProp_omitThemingProps props "spinner" (by decide)

theorem destructure_className (group : Option ButtonGroupContext)
    (props : Props) :
    (destructure group props).className = getProp props "className" := by
  simpa [destructure] using
    getProp_omitThemingProps props "className" (by decide)

theorem destructure_shouldWrapChildren (group : Option ButtonGroupContext)
    (props : Props) :
    (destructure group props).shouldWrapChildren
      = getProp props "shouldWrapChildren" := by
  simpa [destructure] using
    getProp_omitThemingProps props "shouldWrapChildren" (by decide)

theorem destructure_iconSpacing (group : Option ButtonGroupContext)
    (props : Props) :
    (destructure group props).iconSpacing
      = withDefault (getProp props "iconSpacing") (PVal.str "0.5rem") := by
  simpa [destructure] using congrArg
    (fun v => withDefault v (PVal.str "0.5rem"))
    (getProp_omitThemingProps props "iconSpacing" (by decide))

theorem destructure_spinnerPlacement (group : Option ButtonGroupContext)
    (props : Props) :
    (destructure group props).spinnerPlacement
      = withDefault (getProp props "spinnerPlacement") (PVal.str "start") := by
  simpa [destructure] using congrArg
    (fun v => withDefault v (PVal.str "start"))
    (getProp_omitThemingProps props "spinnerPlacement" (by decide))

theorem destructure_isDisabled (group : Option ButtonGroupContext)
    (props : Props) :
    (destructure group props).isDisabled
      = withDefault (getProp props "isDisabled") (groupDisabledVal group) := by
  simpa [destructure] using congrArg
    (fun v => withDefault v (groupDisabledVal group))
    (getProp_omitThemingProps props "isDisabled" (by decide))

theorem destructure_rest (group : Option ButtonGroupContext) (props : Props) :
    (destructure group props).rest
      = List.filter (fun kv => !destructuredKeys.contains kv.1)
          (omitThemingProps props) := by
  simp [destructure]

theorem truthy_str_of_ne (s : String) (hs : s ≠ "") :
    truthy (PVal.str s) = true := by
  have h : s.isEmpty = false :=
    Bool.eq_false_iff.mpr (fun hb => hs ((String.isEmpty_iff s).mp hb))
  simp [truthy, h]

theorem dataAttr_ne_false_str (c : Bool) : dataAttr c ≠ some "false" := by
  cases c <;> decide

theorem button_disabled (group : Option ButtonGroupContext) (styles : StyleObj)
    (props : Props) :
    (Button group styles props).disabled
      = truthy (jsOr (destructure group props).isDisabled
          (destructure group props).isLoading) := by
  simp [Button]

theorem button_dataActive (group : Option ButtonGroupContext)
    (styles : StyleObj) (props : Props) :
    (Button group styles props).dataActive
      = dataAttr (truthy (destructure group props).isActive) := by
  simp [Button]

theorem button_dataLoading (group : Option ButtonGroupContext)
    (styles : StyleObj) (props : Props) :
    (Button group styles props).dataLoading
      = dataAttr (truthy (destructure group props).isLoading) := by
  simp [Button]

theorem button_className (group : Option ButtonGroupContext)
    (styles : StyleObj) (props : Props) :
    (Button group styles props).className
      = cx [PVal.str "chakra-button", (destructure group props).className] := by
  simp [Button]

theorem button_children (group : Option ButtonGroupContext) (styles : StyleObj)
    (props : Props) :
    (Button group styles props).children
      = spinnerStartNodes (destructure group props)
        ++ bodyNodes (destructure group props)
        ++ spinnerEndNodes (destructure group props) := by
  simp [Button]

theorem button_rest (group : Option ButtonGroupContext) (styles : StyleObj)
    (props : Props) :
    (Button group styles props).rest = (destructure group props).rest := by
  simp [Button]

theorem button_css (group : Option ButtonGroupContext) (styles : StyleObj)
    (props : Props) :
    (Button group styles props).css = buttonStyles group styles := by
  simp [Button]

theorem contentOf_leaves (d : Destructured) :
    (contentOf d).leaves
      = buttonContentNodes d.leftIcon d.rightIcon d.children d.iconSpacing := by
  cases hw : truthy d.shouldWrapChildren <;>
    simp [contentOf, ButtonContent, hw, ContentOut.leaves]

theorem nodesHaveElem_append (a b : List RNode) (i : Nat) :
    nodesHaveElem (a ++ b) i = (nodesHaveElem a i || nodesHaveElem b i) := by
  simp [nodesHaveElem, List.any_append]

theorem spinnerStartNodes_no_elem (d : Destructured) (i : Nat)
    (hs : d.spinner ≠ PVal.elem i) (hl : d.loadingText ≠ PVal.elem i) :
    nodesHaveElem (spinnerStartNodes d) i = false := by
  unfold spinnerStartNodes
  split
  · simp [spinnerNode, nodesHaveElem, RNode.hasElem, RLeaf.hasElem, hs, hl]
  · rfl

theorem spinnerEndNodes_no_elem (d : Destructured) (i : Nat)
    (hs : d.spinner ≠ PVal.elem i) (hl : d.loadingText ≠ PVal.elem i) :
    nodesHaveElem (spinnerEndNodes d) i = false := by
  unfold spinnerEndNodes
  split
  · simp [spinnerNode, nodesHaveElem, RNode.hasElem, RLeaf.hasElem, hs, hl]
  · rfl

theorem buttonContentNodes_elem (l r : PVal) (c : Nat) (sp : PVal) :
    List.any (buttonContentNodes l r (PVal.elem c) sp) (RLeaf.hasElem c)
      = true := by
  simp [buttonContentNodes, List.any_append, renderVal, RLeaf.hasElem]

theorem hasKey_filterKeys (l : Props) (keys : List String) (k : String)
    (hk : k ∈ keys) :
    hasKey (List.filter (fun kv => !keys.contains kv.1) l) k = false := by
  rw [hasKey, List.any_eq_false]
  intro kv hm
  have h2 : kv.1 ∉ keys := by simpa using (List.mem_filter.mp hm).2
  simp only [beq_eq_false_iff_ne, ne_eq, Bool.not_eq_true]
  intro he
  exact h2 (by rw [he]; exact hk)

theorem hasKey_filter_le (l : Props) (f : String × PVal → Bool) (k : String)
    (h : hasKey l k = false) : hasKey (List.filter f l) k = false := by
  rw [hasKey, List.any_eq_false]
  intro kv hm
  rw [hasKey, List.any_eq_false] at h
  exact h kv (List.mem_filter.mp hm).1

theorem lookupLast_append_some {β : Type} (a b : List (String × β))
    (k : String) (w : β) (h : lookupLast b k = some w) :
    lookupLast (a ++ b) k = some w := by
  induction a with
  | nil => exact h
  | cons kv rest ih =>
    obtain ⟨x, v⟩ := kv
    simp [lookupLast, ih]

theorem lookupLast_append_none {β : Type} (a b : List (String × β))
    (k : String) (h : lookupLast b k = none) :
    lookupLast (a ++ b) k = lookupLast a k := by
  induction a with
  | nil => exact h
  | cons kv rest ih =>
    obtain ⟨x, v⟩ := kv
    simp [lookupLast, ih]

/-! ## The claims -/

/-- C1: for every input with `isLoading=true`, the rendered root element has
`disabled=true`, regardless of the value supplied for `isDisabled`
(including `isDisabled=false`). -/
theorem c1_loading_forces_disabled (group : Option ButtonGroupContext)
    (styles : StyleObj) (props : Props)
    (h : getProp props "isLoading" = PVal.boolean true) :
    (Button group styles props).disabled = true := by
  have hl : (destructure group props).isLoading = PVal.boolean true := by
    rw [destructure_isLoading, h]
  rw [button_disabled, hl]
  cases hd : truthy (destructure group props).isDisabled
  · have hj : jsOr (destructure group props).isDisabled (PVal.boolean true)
        = PVal.boolean true := by simp [jsOr, hd]
    rw [hj]
    rfl
  · have hj : jsOr (destructure group props).isDisabled (PVal.boolean true)
        = (destructure group props).isDisabled := by simp [jsOr, hd]
    rw [hj]
    exact hd

/-- Witness for C1: a concrete input with `isLoading=true` and
`isDisabled=false` still renders `disabled=true`. -/
theorem c1_loading_forces_disabled_witness :
    (Button none []
      [("isLoading", PVal.boolean true),
       ("isDisabled", PVal.boolean false)]).disabled = true :=
  c1_loading_forces_disabled none []
    [("isLoading", PVal.boolean true), ("isDisabled", PVal.boolean false)]
    (by decide)

/-- C4: for every input, `data-active` is present (with value "") exactly
when `isActive` is truthy and `data-loading` exactly when `isLoading` is
truthy; when the flag is falsy the attribute is absent, and neither
attribute is ever rendered with the value "false". -/
theorem c4_data_attributes (group : Option ButtonGroupContext)
    (styles : StyleObj) (props : Props) :
    ((Button group styles props).dataActive
        = if truthy (getProp props "isActive") then some "" else none) ∧
    ((Button group styles props).dataLoading
        = if truthy (getProp props "isLoading") then some "" else none) ∧
    (Button group styles props).dataActive ≠ some "false" ∧
    (Button group styles props).dataLoading ≠ some "false" := by
  refine ⟨?_, ?_, ?_, ?_⟩
  · rw [button_dataActive, destructure_isActive]; rfl
  · rw [button_dataLoading, destructure_isLoading]; rfl
  · rw [button_dataActive]; exact dataAttr_ne_false_str _
  · rw [button_dataLoading]; exact dataAttr_ne_false_str _

/-- C6: `ButtonContent` with `leftIcon=X`, `rightIcon=Y`, `children=Z` emits
the sibling sequence [X, Z, Y] when `shouldWrapChildren` is false and the
same sequence inside exactly one wrapper node when it is true; the leading
icon carries `marginEnd = iconSpacing`, the trailing icon carries
`marginStart = iconSpacing`, and an unsupplied icon produces no node. -/
theorem c6_button_content (x y z : Nat) (sp : PVal) :
    ButtonContent (PVal.elem x) (PVal.elem y) (PVal.elem z) sp
        (PVal.boolean false)
      = ContentOut.plain
          [RLeaf.buttonIcon PVal.undef sp (PVal.elem x),
           RLeaf.elemNode z,
           RLeaf.buttonIcon sp PVal.undef (PVal.elem y)] ∧
    ButtonContent (PVal.elem x) (PVal.elem y) (PVal.elem z) sp
        (PVal.boolean true)
      = ContentOut.wrapped
          [RLeaf.buttonIcon PVal.undef sp (PVal.elem x),
           RLeaf.elemNode z,
           RLeaf.buttonIcon sp PVal.undef (PVal.elem y)] ∧
    ButtonContent PVal.undef (PVal.elem y) (PVal.elem z) sp
        (PVal.boolean false)
      = ContentOut.plain
          [RLeaf.elemNode z,
           RLeaf.buttonIcon sp PVal.undef (PVal.elem y)] ∧
    ButtonContent (PVal.elem x) PVal.undef (PVal.elem z) sp
        (PVal.boolean false)
      = ContentOut.plain
          [RLeaf.buttonIcon PVal.undef sp (PVal.elem x),
           RLeaf.elemNode z] :=
  ⟨rfl, rfl, rfl, rfl⟩

/-- C9: the root class name always starts with "chakra-button"; it is
exactly "chakra-button" when no caller class is supplied, and
"chakra-button" plus the caller's class, space-separated, when one is. -/
theorem c9_class_name (group : Option ButtonGroupContext) (styles : StyleObj)
    (props : Props) :
    (∃ t, (Button group styles props).className = "chakra-button" ++ t) ∧
    (getProp props "className" = PVal.undef →
      (Button group styles props).className = "chakra-button") ∧
    (∀ s, getProp props "className" = PVal.str s → s ≠ "" →
      (Button group styles props).className = "chakra-button " ++ s) := by
  rw [button_className, destructure_className]
  have h1 : truthy (PVal.str "chakra-button") = true := rfl
  refine ⟨?_, ?_, ?_⟩
  · cases hcn : truthy (getProp props "className")
    · refine ⟨"", ?_⟩
      have hfl : List.filter truthy
          [PVal.str "chakra-button", getProp props "className"]
          = [PVal.str "chakra-button"] := by
        simp [List.filter_cons, h1, hcn]
      simp only [cx]
      rw [hfl]
      rfl
    · refine ⟨" " ++ jsToString (getProp props "className"), ?_⟩
      have hfl : List.filter truthy
          [PVal.str "chakra-button", getProp props "className"]
          = [PVal.str "chakra-button", getProp props "className"] := by
        simp [List.filter_cons, h1, hcn]
      simp only [cx]
      rw [hfl]
      exact String.append_assoc "chakra-button" " "
        (jsToString (getProp props "className"))
  · intro h
    rw [h]
    rfl
  · intro s h hs
    rw [h]
    have hts : truthy (PVal.str s) = true := truthy_str_of_ne s hs
    have hfl : List.filter truthy [PVal.str "chakra-button", PVal.str s]
        = [PVal.str "chakra-button", PVal.str s] := by
      simp [List.filter_cons, h1, hts]
    simp only [cx]
    rw [hfl]
    rfl

/-- Witness for C9: a concrete caller class "primary" yields the class name
"chakra-button primary". -/
theorem c9_class_name_witness :
    (Button none [] [("className", PVal.str "primary")]).className
      = "chakra-button " ++ "primary" :=
  (c9_class_name none [] [("className", PVal.str "primary")]).2.2 "primary"
    (by decide) (by decide)

/-- C5: for every loading input, an explicit `spinnerPlacement="start"`
places the spinner node before the body content in document order and
`"end"` places it after; in both cases the spinner node carries the loading
label (`loadingText`) and the icon spacing (`iconSpacing`). -/
theorem c5_spinner_placement (group : Option ButtonGroupContext)
    (styles : StyleObj) (props : Props)
    (h : getProp props "isLoading" = PVal.boolean true) :
    (getProp props "spinnerPlacement" = PVal.str "start" →
      (Button group styles props).children
        = RNode.leaf (RLeaf.buttonSpinner "chakra-button__spinner--start"
            (getProp props "loadingText") "start"
            (destructure group props).iconSpacing
            (getProp props "spinner"))
          :: bodyNodes (destructure group props)) ∧
    (getProp props "spinnerPlacement" = PVal.str "end" →
      (Button group styles props).children
        = bodyNodes (destructure group props)
          ++ [RNode.leaf (RLeaf.buttonSpinner "chakra-button__spinner--end"
                (getProp props "loadingText") "end"
                (destructure group props).iconSpacing
                (getProp props "spinner"))]) := by
  have hl : (destructure group props).isLoading = PVal.boolean true := by
    rw [destructure_isLoading, h]
  have ht1 : truthy (destructure group props).isLoading = true := by
    rw [hl]; rfl
  have hlt := destructure_loadingText group props
  have hsp := destructure_spinner group props
  constructor
  · intro hp
    have hpl : (destructure group props).spinnerPlacement
        = PVal.str "start" := by
      rw [destructure_spinnerPlacement, hp]; rfl
    have hss : spinnerStartNodes (destructure group props)
        = [spinnerNode "start" (destructure group props)] := by
      simp [spinnerStartNodes, hpl, ht1]
    have hse : spinnerEndNodes (destructure group props) = [] := by
      simp [spinnerEndNodes, hpl, ht1]
    rw [button_children, hss, hse, List.append_nil]
    simp [spinnerNode, hlt, hsp]
  · intro hp
    have hpl : (destructure group props).spinnerPlacement
        = PVal.str "end" := by
      rw [destructure_spinnerPlacement, hp]; rfl
    have hss : spinnerStartNodes (destructure group props) = [] := by
      simp [spinnerStartNodes, hpl, ht1]
    have hse : spinnerEndNodes (destructure group props)
        = [spinnerNode "end" (destructure group props)] := by
      simp [spinnerEndNodes, hpl, ht1]
    rw [button_children, hss, hse, List.nil_append]
    simp [spinnerNode, hlt, hsp]

/-- Witness for C5 at a concrete input: `spinnerPlacement="end"` renders the
spinner node after the content node, carrying the label and spacing. -/
theorem c5_spinner_placement_witness :
    (Button none []
      [("isLoading", PVal.boolean true), ("loadingText", PVal.str "Wait"),
       ("spinnerPlacement", PVal.str "end")]).children
      = [RNode.leaf (RLeaf.text "Wait"),
         RNode.leaf (RLeaf.buttonSpinner "chakra-button__spinner--end"
           (PVal.str "Wait") "end" (PVal.str "0.5rem") PVal.undef)] :=
  (c5_spinner_placement none []
    [("isLoading", PVal.boolean true), ("loadingText", PVal.str "Wait"),
     ("spinnerPlacement", PVal.str "end")] (by decide)).2 (by decide)

/-- C2 counterexample: with `isLoading=true` and `loadingText` provided as
the empty string, the body is not the loading text: the original children
remain in the rendered tree (inside the zero-opacity wrapper), refuting the
claim as stated at this input. -/
theorem c2_counterexample :
    getProp [("isLoading", PVal.boolean true), ("loadingText", PVal.str ""),
      ("children", PVal.elem 3)] "loadingText" = PVal.str "" ∧
    bodyNodes (destructure none
      [("isLoading", PVal.boolean true), ("loadingText", PVal.str ""),
       ("children", PVal.elem 3)]) ≠ [RNode.leaf (RLeaf.text "")] ∧
    nodesHaveElem (Button none []
      [("isLoading", PVal.boolean true), ("loadingText", PVal.str ""),
       ("children", PVal.elem 3)]).children 3 = true := by
  refine ⟨rfl, by decide, by decide⟩

/-- C2 (amended): for every loading input, a provided NONEMPTY `loadingText`
renders that text as the body and the original children are not present in
the tree; when `loadingText` is undefined the original children are present,
wrapped in the zero-opacity container (occupying layout, not removed).  The
amendment restricts the first case to nonempty text because body selection
is by truthiness of `loadingText`. -/
theorem c2_loading_body (group : Option ButtonGroupContext) (styles : StyleObj)
    (props : Props) (c : Nat)
    (hl : getProp props "isLoading" = PVal.boolean true)
    (hc : getProp props "children" = PVal.elem c) :
    (∀ s, getProp props "loadingText" = PVal.str s → s ≠ "" →
      bodyNodes (destructure group props) = [RNode.leaf (RLeaf.text s)] ∧
      (getProp props "spinner" ≠ PVal.elem c →
        nodesHaveElem (Button group styles props).children c = false)) ∧
    (getProp props "loadingText" = PVal.undef →
      bodyNodes (destructure group props)
        = [RNode.opacitySpan (contentOf (destructure group props))] ∧
      nodesHaveElem (Button group styles props).children c = true) := by
  have hld : (destructure group props).isLoading = PVal.boolean true := by
    rw [destructure_isLoading, hl]
  have ht1 : truthy (destructure group props).isLoading = true := by
    rw [hld]; rfl
  have hcd : (destructure group props).children = PVal.elem c := by
    rw [destructure_children, hc]
  constructor
  · intro s hlt hs
    have hltd : (destructure group props).loadingText = PVal.str s := by
      rw [destructure_loadingText, hlt]
    have htr : truthy (PVal.str s) = true := truthy_str_of_ne s hs
    have hbody : bodyNodes (destructure group props)
        = [RNode.leaf (RLeaf.text s)] := by
      simp [bodyNodes, ht1, hltd, htr, renderVal]
    refine ⟨hbody, ?_⟩
    intro hsp
    have hspd : (destructure group props).spinner ≠ PVal.elem c := by
      rw [destructure_spinner]; exact hsp
    have hltne : (destructure group props).loadingText ≠ PVal.elem c := by
      rw [hltd]; intro hco; cases hco
    rw [button_children, nodesHaveElem_append, nodesHaveElem_append,
      spinnerStartNodes_no_elem _ _ hspd hltne,
      spinnerEndNodes_no_elem _ _ hspd hltne, hbody]
    simp [nodesHaveElem, RNode.hasElem, RLeaf.hasElem]
  · intro hlt
    have hltd : (destructure group props).loadingText = PVal.undef := by
      rw [destructure_loadingText, hlt]
    have hbody : bodyNodes (destructure group props)
        = [RNode.opacitySpan (contentOf (destructure group props))] := by
      simp [bodyNodes, ht1, hltd, show truthy PVal.undef = false from rfl]
    refine ⟨hbody, ?_⟩
    rw [button_children, nodesHaveElem_append, nodesHaveElem_append, hbody]
    have hop : nodesHaveElem
        [RNode.opacitySpan (contentOf (destructure group props))] c = true := by
      simp [nodesHaveElem, RNode.hasElem, contentOf_leaves, hcd,
        buttonContentNodes_elem]
    rw [hop]
    simp

/-- Witness for C2 (amended): a concrete loading input with
`loadingText="Saving"` renders the text "Saving" and drops the children;
the theorem is applied at that input. -/
theorem c2_loading_body_witness :
    bodyNodes (destructure none
      [("isLoading", PVal.boolean true), ("loadingText", PVal.str "Saving"),
       ("children", PVal.elem 3)]) = [RNode.leaf (RLeaf.text "Saving")] ∧
    nodesHaveElem (Button none []
      [("isLoading", PVal.boolean true), ("loadingText", PVal.str "Saving"),
       ("children", PVal.elem 3)]).children 3 = false := by
  have h := (c2_loading_body none []
    [("isLoading", PVal.boolean true), ("loadingText", PVal.str "Saving"),
     ("children", PVal.elem 3)] 3 (by decide) (by decide)).1 "Saving"
    (by decide) (by decide)
  exact ⟨h.1, h.2 (by decide)⟩

/-- C10: with `isLoading=true` and `loadingText=""` (and the default spinner
placement), the body is the zero-opacity wrapper around the original
children — not the empty text — while the spinner still receives the empty
string as its label: body selection is by truthiness of `loadingText`. -/
theorem c10_empty_loading_text (group : Option ButtonGroupContext)
    (styles : StyleObj) (props : Props) (c : Nat)
    (h1 : getProp props "isLoading" = PVal.boolean true)
    (h2 : getProp props "loadingText" = PVal.str "")
    (h3 : getProp props "spinnerPlacement" = PVal.undef)
    (h4 : getProp props "children" = PVal.elem c) :
    (Button group styles props).children
      = [RNode.leaf (RLeaf.buttonSpinner "chakra-button__spinner--start"
           (PVal.str "") "start" (destructure group props).iconSpacing
           (getProp props "spinner")),
         RNode.opacitySpan (contentOf (destructure group props))] ∧
    nodesHaveElem (Button group styles props).children c = true := by
  have hld : (destructure group props).isLoading = PVal.boolean true := by
    rw [destructure_isLoading, h1]
  have ht1 : truthy (destructure group props).isLoading = true := by
    rw [hld]; rfl
  have hltd : (destructure group props).loadingText = PVal.str "" := by
    rw [destructure_loadingText, h2]
  have htr : truthy (destructure group props).loadingText = false := by
    rw [hltd]; rfl
  have hcd : (destructure group props).children = PVal.elem c := by
    rw [destructure_children, h4]
  have hpl : (destructure group props).spinnerPlacement
      = PVal.str "start" := by
    rw [destructure_spinnerPlacement, h3]; rfl
  have hbody : bodyNodes (destructure group props)
      = [RNode.opacitySpan (contentOf (destructure group props))] := by
    simp [bodyNodes, ht1, htr]
  have hss : spinnerStartNodes (destructure group props)
      = [spinnerNode "start" (destructure group props)] := by
    simp [spinnerStartNodes, hpl, ht1]
  have hse : spinnerEndNodes (destructure group props) = [] := by
    simp [spinnerEndNodes, hpl, ht1]
  have hch : (Button group styles props).children
      = [RNode.leaf (RLeaf.buttonSpinner "chakra-button__spinner--start"
           (PVal.str "") "start" (destructure group props).iconSpacing
           (getProp props "spinner")),
         RNode.opacitySpan (contentOf (destructure group props))] := by
    rw [button_children, hss, hse, hbody, List.append_nil]
    simp [spinnerNode, hltd, destructure_spinner]
  refine ⟨hch, ?_⟩
  rw [hch]
  simp [nodesHaveElem, RNode.hasElem, contentOf_leaves, hcd,
    buttonContentNodes_elem]

/-- Witness for C10: a concrete input with `loadingText=""` renders the
children in the zero-opacity wrapper and a spinner labelled "". -/
theorem c10_empty_loading_text_witness :
    (Button none []
      [("isLoading", PVal.boolean true), ("loadingText", PVal.str ""),
       ("children", PVal.elem 3)]).children
      = [RNode.leaf (RLeaf.buttonSpinner "chakra-button__spinner--start"
           (PVal.str "") "start" (PVal.str "0.5rem") PVal.undef),
         RNode.opacitySpan (ContentOut.plain [RLeaf.elemNode 3])] ∧
    nodesHaveElem (Button none []
      [("isLoading", PVal.boolean true), ("loadingText", PVal.str ""),
       ("children", PVal.elem 3)]).children 3 = true :=
  c10_empty_loading_text none []
    [("isLoading", PVal.boolean true), ("loadingText", PVal.str ""),
     ("children", PVal.elem 3)] 3 (by decide) (by decide) (by decide)
    (by decide)

/-- C3 counterexample: the arbitrary extra prop "foo" holds a renderable
element, yet it appears among the passthrough props spread onto the root
DOM node — element-valued props are not all excluded from the passthrough
set, refuting the claim as stated. -/
theorem c3_counterexample :
    isValidElement (PVal.elem 7) = true ∧
    (Button none [] [("foo", PVal.elem 7)]).rest = [("foo", PVal.elem 7)] ∧
    List.all (Button none [] [("foo", PVal.elem 7)]).rest
      (fun kv => !isValidElement kv.2) = false := by
  refine ⟨rfl, by decide, by decide⟩

/-- C3 (amended): element-valued props are excluded from the props passed
to the theme style resolver (`omitValidElementProps`), and none of the
named content/option props — nor the theming keys — ever appears among the
passthrough props spread onto the root; but the passthrough set itself is
not filtered by element-validity, so an arbitrary extra prop whose value is
an element is still forwarded to the root (see the counterexample). -/
theorem c3_prop_filtering (group : Option ButtonGroupContext)
    (styles : StyleObj) (props : Props) :
    List.all (omitValidElementProps props)
      (fun kv => !isValidElement kv.2) = true ∧
    List.all destructuredKeys
      (fun k => !hasKey (Button group styles props).rest k) = true ∧
    List.all themingKeys
      (fun k => !hasKey (Button group styles props).rest k) = true := by
  refine ⟨?_, ?_, ?_⟩
  · rw [List.all_eq_true]
    intro kv hm
    simp only [omitValidElementProps, objectFilter] at hm
    exact (List.mem_filter.mp hm).2
  · rw [List.all_eq_true]
    intro k hk
    have hr : hasKey (Button group styles props).rest k = false := by
      rw [button_rest, destructure_rest]
      exact hasKey_filterKeys _ destructuredKeys k hk
    simp [hr]
  · rw [List.all_eq_true]
    intro k hk
    have h0 : hasKey (omitThemingProps props) k = false :=
      hasKey_filterKeys props themingKeys k hk
    have hr : hasKey (Button group styles props).rest k = false := by
      rw [button_rest, destructure_rest]
      exact hasKey_filter_le _ _ k h0
    simp [hr]

/-- C7: the final style object is the merge, in increasing precedence, of
the base structural defaults, the theme-resolved "Button" style and —
exactly when the button is inside a group — a `_focus` override copying the
theme's `_focus` object with `zIndex` set to 1; with no group context the
theme's `_focus` entry is left unmodified. -/
theorem c7_style_merge (styles : StyleObj) :
    (∀ k, lookupLast (buttonStyles none styles) k
        = if (lookupLast styles k).isSome then lookupLast styles k
          else lookupLast baseStyles k) ∧
    (∀ g : ButtonGroupContext,
      (∀ k, k ≠ "_focus" →
        lookupLast (buttonStyles (some g) styles) k
          = if (lookupLast styles k).isSome then lookupLast styles k
            else lookupLast baseStyles k) ∧
      lookupLast (buttonStyles (some g) styles) "_focus"
        = some (focusOverride styles)) ∧
    lookupLast (focusBase styles ++ [("zIndex", SAtom.num 1)]) "zIndex"
      = some (SAtom.num 1) ∧
    (∀ k, k ≠ "zIndex" →
      lookupLast (focusBase styles ++ [("zIndex", SAtom.num 1)]) k
        = lookupLast (focusBase styles) k) := by
  refine ⟨?_, ?_, ?_, ?_⟩
  · intro k
    have hb : buttonStyles none styles = (baseStyles ++ styles) ++ [] := rfl
    rw [hb, lookupLast_append_none (baseStyles ++ styles) [] k rfl]
    cases h : lookupLast styles k
    · rw [lookupLast_append_none baseStyles styles k h]
      simp
    · rw [lookupLast_append_some baseStyles styles k _ h]
      simp
  · intro g
    have hb : buttonStyles (some g) styles
        = (baseStyles ++ styles) ++ [("_focus", focusOverride styles)] := rfl
    constructor
    · intro k hk
      have hsing : lookupLast [("_focus", focusOverride styles)] k
          = none := by
        simp [lookupLast, Ne.symm hk]
      rw [hb, lookupLast_append_none _ _ k hsing]
      cases h : lookupLast styles k
      · rw [lookupLast_append_none baseStyles styles k h]
        simp
      · rw [lookupLast_append_some baseStyles styles k _ h]
        simp
    · rw [hb]
      exact lookupLast_append_some _ _ _ _ (by simp [lookupLast])
  · exact lookupLast_append_some _ _ _ _ (by simp [lookupLast])
  · intro k hk
    have hsing : lookupLast [("zIndex", SAtom.num 1)] k = none := by
      simp [lookupLast, Ne.symm hk]
    exact lookupLast_append_none _ _ k hsing

/-- Witness for C7 at a concrete theme style: inside a group, a non-focus
key keeps its theme value and `_focus` becomes the theme's focus object
with `zIndex` 1 appended. -/
theorem c7_style_merge_witness :
    lookupLast (buttonStyles (some { isDisabled := none })
        [("color", SVal.atom (SAtom.str "blue")),
         ("_focus", SVal.obj [("boxShadow", SAtom.str "outline")])]) "color"
      = some (SVal.atom (SAtom.str "blue")) ∧
    lookupLast (buttonStyles (some { isDisabled := none })
        [("color", SVal.atom (SAtom.str "blue")),
         ("_focus", SVal.obj [("boxShadow", SAtom.str "outline")])]) "_focus"
      = some (SVal.obj [("boxShadow", SAtom.str "outline"),
          ("zIndex", SAtom.num 1)]) := by
  have h := c7_style_merge
    [("color", SVal.atom (SAtom.str "blue")),
     ("_focus", SVal.obj [("boxShadow", SAtom.str "outline")])]
  refine ⟨?_, ?_⟩
  · have h1 := (h.2.1 { isDisabled := none }).1 "color" (by decide)
    simpa using h1
  · have h2 := (h.2.1 { isDisabled := none }).2
    simpa using h2

/-- C8: omitted options use the documented fallbacks: `iconSpacing`
defaults to "0.5rem", `spinnerPlacement` defaults to "start", and (apart
from the loading override) the effective disabled state is the explicit
`isDisabled` if given, else the group-inherited default if in a group,
else false. -/
theorem c8_defaults (group : Option ButtonGroupContext) (styles : StyleObj)
    (props : Props) :
    (getProp props "iconSpacing" = PVal.undef →
      (destructure group props).iconSpacing = PVal.str "0.5rem") ∧
    (getProp props "spinnerPlacement" = PVal.undef →
      (destructure group props).spinnerPlacement = PVal.str "start") ∧
    (truthy (getProp props "isLoading") = false →
      (∀ b, getProp props "isDisabled" = PVal.boolean b →
        (Button group styles props).disabled = b) ∧
      (getProp props "isDisabled" = PVal.undef →
        (∀ g b, group = some g → g.isDisabled = some b →
          (Button group styles props).disabled = b) ∧
        (Option.bind group ButtonGroupContext.isDisabled = none →
          (Button group styles props).disabled = false))) := by
  refine ⟨?_, ?_, ?_⟩
  · intro h
    rw [destructure_iconSpacing, h]
    rfl
  · intro h
    rw [destructure_spinnerPlacement, h]
    rfl
  · intro hnl
    have htl : truthy (destructure group props).isLoading = false := by
      rw [destructure_isLoading]; exact hnl
    constructor
    · intro b hb
      have hd : (destructure group props).isDisabled = PVal.boolean b := by
        rw [destructure_isDisabled, hb]; rfl
      rw [button_disabled, hd]
      cases b
      · have hj : jsOr (PVal.boolean false)
            (destructure group props).isLoading
            = (destructure group props).isLoading := by
          simp [jsOr, show truthy (PVal.boolean false) = false from rfl]
        rw [hj]
        exact htl
      · have hj : jsOr (PVal.boolean true)
            (destructure group props).isLoading = PVal.boolean true := by
          simp [jsOr, show truthy (PVal.boolean true) = true from rfl]
        rw [hj]
        rfl
    · intro hu
      have hdd : (destructure group props).isDisabled
          = groupDisabledVal group := by
        rw [destructure_isDisabled, hu]; rfl
      constructor
      · intro g b hg hgb
        have hgv : groupDisabledVal group = PVal.boolean b := by
          rw [hg]
          simp [groupDisabledVal, hgb]
        rw [button_disabled, hdd, hgv]
        cases b
        · have hj : jsOr (PVal.boolean false)
              (destructure group props).isLoading
              = (destructure group props).isLoading := by
            simp [jsOr, show truthy (PVal.boolean false) = false from rfl]
          rw [hj]
          exact htl
        · have hj : jsOr (PVal.boolean true)
              (destructure group props).isLoading = PVal.boolean true := by
            simp [jsOr, show truthy (PVal.boolean true) = true from rfl]
          rw [hj]
          rfl
      · intro hnone
        have hgv : groupDisabledVal group = PVal.undef := by
          cases group with
          | none => rfl
          | some g =>
            simp only [Option.bind] at hnone
            simp [groupDisabledVal, hnone]
        rw [button_disabled, hdd, hgv]
        have hj : jsOr PVal.undef (destructure group props).isLoading
            = (destructure group props).isLoading := by
          simp [jsOr, show truthy PVal.undef = false from rfl]
        rw [hj]
        exact htl

/-- Witness for C8 at concrete inputs: empty props give the spacing and
placement defaults; a group default `isDisabled=true` is inherited; an
explicit `isDisabled=false` wins over the group default; with no group and
no flag the button is enabled. -/
theorem c8_defaults_witness :
    (destructure none []).iconSpacing = PVal.str "0.5rem" ∧
    (destructure none []).spinnerPlacement = PVal.str "start" ∧
    (Button (some { isDisabled := some true }) [] []).disabled = true ∧
    (Button (some { isDisabled := some true }) []
      [("isDisabled", PVal.boolean false)]).disabled = false ∧
    (Button none [] []).disabled = false := by
  refine ⟨?_, ?_, ?_, ?_, ?_⟩
  · exact (c8_defaults none [] []).1 (by decide)
  · exact (c8_defaults none [] []).2.1 (by decide)
  · exact (((c8_defaults (some { isDisabled := some true }) [] []).2.2
      (by decide)).2 (by decide)).1 { isDisabled := some true } true rfl rfl
  · exact ((c8_defaults (some { isDisabled := some true }) []
      [("isDisabled", PVal.boolean false)]).2.2 (by decide)).1 false
      (by decide)
  · exact (((c8_defaults none [] []).2.2 (by decide)).2 (by decide)).2 rfl

end ChakraButton
